import Mathlib

/-!
Verification of the trip-planner line-table builder scripts
(`generateLineData.py` and `parseWikipediaColors.py`).

Python dictionaries are modelled as association lists in insertion order.
`setItem` models `d[k] = v` (update in place if the key exists, else append),
`updateAll` models `dict.update` / successive item assignment, and `dictOf`
models evaluation of a dict literal (later duplicate keys override earlier
ones, the key keeps its first position).
-/

set_option maxRecDepth 20000

namespace TripPlanner

/-- The attribute record of `generateLineData.py`: `{'color': ..., 'en': ...}`. -/
structure LineAttrs where
  color : String
  en : String
deriving DecidableEq

/-- A row of `WIKIPEDIA_COLORS`: `(hex_color, line_name, operator)`. -/
abbrev CodeRow := String × String × String

/-- The attribute record of `parseWikipediaColors.py` output: color, English
name, optional operator, and provenance tag. -/
structure WikiAttrs where
  color : String
  en : String
  operator : Option String
  source : String
deriving DecidableEq

/-- A Python dict, modelled as an association list in insertion order. -/
abbrev Dict (V : Type) := List (String × V)

/-- Dictionary lookup (`d[k]` / `d.get(k)`): first matching key. -/
def lookup {V : Type} : Dict V → String → Option V
  | [], _ => none
  | (k, v) :: rest, key => if k = key then some v else lookup rest key

/-- Membership test (`k in d`). -/
def hasKey {V : Type} (d : Dict V) (key : String) : Bool :=
  (lookup d key).isSome

/-- Python dict item assignment `d[key] = v`: update the value in place if
the key is present, otherwise append at the end. -/
def setItem {V : Type} : Dict V → String → V → Dict V
  | [], key, v => [(key, v)]
  | (k, w) :: rest, key, v =>
      if k = key then (k, v) :: rest else (k, w) :: setItem rest key v

/-- `d.update(ps)` / evaluating literal entries in order: fold `setItem`. -/
def updateAll {V : Type} (d : Dict V) (ps : List (String × V)) : Dict V :=
  ps.foldl (fun acc kv => setItem acc kv.1 kv.2) d

/-- Evaluation of a Python dict literal from its written pair list. -/
def dictOf {V : Type} (ps : List (String × V)) : Dict V := updateAll [] ps

/-- The keys of a dict, in order. -/
def keys {V : Type} (d : Dict V) : List String := d.map Prod.fst

/-- Last-occurrence lookup on a raw pair list (the value a dict literal
gives a duplicated key). -/
def lookupLast {V : Type} : List (String × V) → String → Option V
  | [], _ => none
  | p :: ps, key =>
      match lookupLast ps key with
      | some v => some v
      | none => if p.1 = key then some p.2 else none


/-! ## Source data tables, transcribed literally from the scripts -/

def tokyoPairs : List (String × LineAttrs) := [
  ("銀座線", LineAttrs.mk "#FF9500" "Ginza Line"),
  ("1号線銀座線", LineAttrs.mk "#FF9500" "Ginza Line"),
  ("3号線銀座線", LineAttrs.mk "#FF9500" "Ginza Line"),
  ("3号線", LineAttrs.mk "#FF9500" "Ginza Line"),
  ("日比谷線", LineAttrs.mk "#B5B5AC" "Hibiya Line"),
  ("2号線日比谷線", LineAttrs.mk "#B5B5AC" "Hibiya Line"),
  ("丸ノ内線", LineAttrs.mk "#F62E36" "Marunouchi Line"),
  ("4号線丸ノ内線", LineAttrs.mk "#F62E36" "Marunouchi Line"),
  ("4号線", LineAttrs.mk "#F62E36" "Marunouchi Line"),
  ("4号線丸ノ内線分岐線", LineAttrs.mk "#F62E36" "Marunouchi Branch Line"),
  ("東西線", LineAttrs.mk "#009BBF" "Tozai Line"),
  ("5号線東西線", LineAttrs.mk "#009BBF" "Tozai Line"),
  ("千代田線", LineAttrs.mk "#00A650" "Chiyoda Line"),
  ("9号線千代田線", LineAttrs.mk "#00A650" "Chiyoda Line"),
  ("有楽町線", LineAttrs.mk "#C1A470" "Yurakucho Line"),
  ("8号線有楽町線", LineAttrs.mk "#C1A470" "Yurakucho Line"),
  ("半蔵門線", LineAttrs.mk "#8F76D6" "Hanzomon Line"),
  ("11号線半蔵門線", LineAttrs.mk "#8F76D6" "Hanzomon Line"),
  ("南北線", LineAttrs.mk "#00AC9B" "Namboku Line"),
  ("7号線南北線", LineAttrs.mk "#00AC9B" "Namboku Line"),
  ("副都心線", LineAttrs.mk "#9C5E31" "Fukutoshin Line"),
  ("13号線副都心線", LineAttrs.mk "#9C5E31" "Fukutoshin Line"),
  ("浅草線", LineAttrs.mk "#E85298" "Asakusa Line"),
  ("1号線浅草線", LineAttrs.mk "#E85298" "Asakusa Line"),
  ("三田線", LineAttrs.mk "#0079C2" "Mita Line"),
  ("6号線三田線", LineAttrs.mk "#0079C2" "Mita Line"),
  ("新宿線", LineAttrs.mk "#6CBB5A" "Shinjuku Line"),
  ("10号線新宿線", LineAttrs.mk "#6CBB5A" "Shinjuku Line"),
  ("大江戸線", LineAttrs.mk "#B6007A" "Oedo Line"),
  ("12号線大江戸線", LineAttrs.mk "#B6007A" "Oedo Line"),
  ("山手線", LineAttrs.mk "#9ACD32" "Yamanote Line"),
  ("中央線", LineAttrs.mk "#FF4500" "Chuo Line"),
  ("中央線快速", LineAttrs.mk "#FF4500" "Chuo Rapid Line"),
  ("中央・総武線", LineAttrs.mk "#FFD700" "Chuo-Sobu Line"),
  ("総武線", LineAttrs.mk "#FFD700" "Sobu Line"),
  ("総武本線", LineAttrs.mk "#FFD700" "Sobu Line"),
  ("京浜東北線", LineAttrs.mk "#00BFFF" "Keihin-Tohoku Line"),
  ("東海道線", LineAttrs.mk "#FF8C00" "Tokaido Line"),
  ("東海道新幹線", LineAttrs.mk "#0072BC" "Tokaido Shinkansen"),
  ("横須賀線", LineAttrs.mk "#0F4C9A" "Yokosuka Line"),
  ("埼京線", LineAttrs.mk "#228B22" "Saikyo Line"),
  ("赤羽線（埼京線）", LineAttrs.mk "#228B22" "Saikyo Line"),
  ("東北線（埼京線）", LineAttrs.mk "#228B22" "Saikyo Line"),
  ("湘南新宿ライン", LineAttrs.mk "#FF4500" "Shonan-Shinjuku Line"),
  ("常磐線", LineAttrs.mk "#00B261" "Joban Line"),
  ("常磐線快速", LineAttrs.mk "#00B261" "Joban Rapid Line"),
  ("常磐新線", LineAttrs.mk "#0066CC" "Tsukuba Express"),
  ("京葉線", LineAttrs.mk "#C9242F" "Keiyo Line"),
  ("武蔵野線", LineAttrs.mk "#FF6600" "Musashino Line"),
  ("南武線", LineAttrs.mk "#FFD400" "Nambu Line"),
  ("横浜線", LineAttrs.mk "#7CFC00" "Yokohama Line"),
  ("青梅線", LineAttrs.mk "#FF4500" "Ome Line"),
  ("東北線", LineAttrs.mk "#F68B1E" "Tohoku Line"),
  ("東北本線", LineAttrs.mk "#F68B1E" "Tohoku Line"),
  ("東北新幹線", LineAttrs.mk "#00B261" "Tohoku Shinkansen"),
  ("鶴見線", LineAttrs.mk "#FFCC00" "Tsurumi Line"),
  ("東横線", LineAttrs.mk "#DA0442" "Tokyu Toyoko Line"),
  ("東急東横線", LineAttrs.mk "#DA0442" "Tokyu Toyoko Line"),
  ("田園都市線", LineAttrs.mk "#00A040" "Tokyu Den-en-toshi Line"),
  ("東急田園都市線", LineAttrs.mk "#00A040" "Tokyu Den-en-toshi Line"),
  ("目黒線", LineAttrs.mk "#009CD2" "Tokyu Meguro Line"),
  ("東急目黒線", LineAttrs.mk "#009CD2" "Tokyu Meguro Line"),
  ("大井町線", LineAttrs.mk "#F18C00" "Tokyu Oimachi Line"),
  ("東急大井町線", LineAttrs.mk "#F18C00" "Tokyu Oimachi Line"),
  ("池上線", LineAttrs.mk "#EE86A7" "Tokyu Ikegami Line"),
  ("東急池上線", LineAttrs.mk "#EE86A7" "Tokyu Ikegami Line"),
  ("多摩川線", LineAttrs.mk "#AE0378" "Tokyu Tamagawa Line"),
  ("東急多摩川線", LineAttrs.mk "#AE0378" "Tokyu Tamagawa Line"),
  ("世田谷線", LineAttrs.mk "#EE86A7" "Tokyu Setagaya Line"),
  ("こどもの国線", LineAttrs.mk "#45B8E8" "Kodomonokuni Line"),
  ("小田急線", LineAttrs.mk "#1E90FF" "Odakyu Line"),
  ("小田原線", LineAttrs.mk "#1E90FF" "Odakyu Odawara Line"),
  ("小田急小田原線", LineAttrs.mk "#1E90FF" "Odakyu Odawara Line"),
  ("江ノ島線", LineAttrs.mk "#1E90FF" "Odakyu Enoshima Line"),
  ("小田急江ノ島線", LineAttrs.mk "#1E90FF" "Odakyu Enoshima Line"),
  ("多摩線", LineAttrs.mk "#1E90FF" "Odakyu Tama Line"),
  ("小田急多摩線", LineAttrs.mk "#1E90FF" "Odakyu Tama Line"),
  ("京王線", LineAttrs.mk "#DD0077" "Keio Line"),
  ("井の頭線", LineAttrs.mk "#1E90FF" "Keio Inokashira Line"),
  ("京王井の頭線", LineAttrs.mk "#1E90FF" "Keio Inokashira Line"),
  ("相模原線", LineAttrs.mk "#DD0077" "Keio Sagamihara Line"),
  ("動物園線", LineAttrs.mk "#DD0077" "Keio Dobutsuen Line"),
  ("競馬場線", LineAttrs.mk "#DD0077" "Keio Keibajo Line"),
  ("池袋線", LineAttrs.mk "#003399" "Seibu Ikebukuro Line"),
  ("西武池袋線", LineAttrs.mk "#003399" "Seibu Ikebukuro Line"),
  ("西武新宿線", LineAttrs.mk "#003399" "Seibu Shinjuku Line"),
  ("拝島線", LineAttrs.mk "#003399" "Seibu Haijima Line"),
  ("多摩湖線", LineAttrs.mk "#003399" "Seibu Tamako Line"),
  ("国分寺線", LineAttrs.mk "#003399" "Seibu Kokubunji Line"),
  ("西武園線", LineAttrs.mk "#003399" "Seibu-en Line"),
  ("西武有楽町線", LineAttrs.mk "#003399" "Seibu Yurakucho Line"),
  ("狭山線", LineAttrs.mk "#003399" "Seibu Sayama Line"),
  ("豊島線", LineAttrs.mk "#003399" "Seibu Toshima Line"),
  ("山口線", LineAttrs.mk "#003399" "Seibu Yamaguchi Line"),
  ("東上本線", LineAttrs.mk "#0060CF" "Tobu Tojo Line"),
  ("東武東上線", LineAttrs.mk "#0060CF" "Tobu Tojo Line"),
  ("伊勢崎線", LineAttrs.mk "#0060CF" "Tobu Isesaki Line"),
  ("東武伊勢崎線", LineAttrs.mk "#0060CF" "Tobu Isesaki Line"),
  ("東武スカイツリーライン", LineAttrs.mk "#0060CF" "Tobu Skytree Line"),
  ("亀戸線", LineAttrs.mk "#0060CF" "Tobu Kameido Line"),
  ("大師線", LineAttrs.mk "#0060CF" "Tobu Daishi Line"),
  ("野田線", LineAttrs.mk "#0060CF" "Tobu Urban Park Line"),
  ("本線", LineAttrs.mk "#1E50A2" "Keisei Main Line"),
  ("京成本線", LineAttrs.mk "#1E50A2" "Keisei Main Line"),
  ("押上線", LineAttrs.mk "#1E50A2" "Keisei Oshiage Line"),
  ("京成押上線", LineAttrs.mk "#1E50A2" "Keisei Oshiage Line"),
  ("金町線", LineAttrs.mk "#1E50A2" "Keisei Kanamachi Line"),
  ("成田空港線", LineAttrs.mk "#1E50A2" "Narita Sky Access"),
  ("空港線", LineAttrs.mk "#E8334A" "Keikyu Airport Line"),
  ("京急本線", LineAttrs.mk "#E8334A" "Keikyu Main Line"),
  ("京急線", LineAttrs.mk "#E8334A" "Keikyu Line"),
  ("りんかい線", LineAttrs.mk "#00A3E0" "Rinkai Line"),
  ("東京臨海新交通臨海線", LineAttrs.mk "#00B7CE" "Yurikamome"),
  ("ゆりかもめ", LineAttrs.mk "#00B7CE" "Yurikamome"),
  ("東京モノレール羽田線", LineAttrs.mk "#00A7DB" "Tokyo Monorail"),
  ("東京モノレール", LineAttrs.mk "#00A7DB" "Tokyo Monorail"),
  ("多摩都市モノレール線", LineAttrs.mk "#F39800" "Tama Monorail"),
  ("多摩モノレール", LineAttrs.mk "#F39800" "Tama Monorail"),
  ("日暮里・舎人線", LineAttrs.mk "#FF69B4" "Nippori-Toneri Liner"),
  ("日暮里・舎人ライナー", LineAttrs.mk "#FF69B4" "Nippori-Toneri Liner"),
  ("埼玉高速鉄道線", LineAttrs.mk "#2C74BE" "Saitama Railway"),
  ("北総線", LineAttrs.mk "#0080C6" "Hokuso Line"),
  ("東葉高速線", LineAttrs.mk "#2FA8E0" "Toyo Rapid Railway"),
  ("新京成線", LineAttrs.mk "#E85298" "Shin-Keisei Line"),
  ("流山線", LineAttrs.mk "#00A650" "Nagareyama Line"),
  ("荒川線", LineAttrs.mk "#FFC20E" "Tokyo Sakura Tram"),
  ("ディズニーリゾートライン", LineAttrs.mk "#E7348E" "Disney Resort Line"),
  ("上野懸垂線", LineAttrs.mk "#228B22" "Ueno Zoo Monorail"),
  ("つくばエクスプレス", LineAttrs.mk "#0066CC" "Tsukuba Express")]

def kansaiPairs : List (String × LineAttrs) := [
  ("JR京都線", LineAttrs.mk "#0072bc" "JR Kyoto Line"),
  ("JR神戸線", LineAttrs.mk "#0072bc" "JR Kobe Line"),
  ("JR東西線", LineAttrs.mk "#ff69b4" "JR Tozai Line"),
  ("東海道本線", LineAttrs.mk "#0072bc" "Tokaido Line"),
  ("大阪環状線", LineAttrs.mk "#e60012" "Osaka Loop Line"),
  ("阪和線", LineAttrs.mk "#f15a22" "Hanwa Line"),
  ("関西本線", LineAttrs.mk "#009944" "Kansai Line"),
  ("関西線", LineAttrs.mk "#009944" "Kansai Line"),
  ("奈良線", LineAttrs.mk "#a52a2a" "Nara Line"),
  ("嵯峨野線", LineAttrs.mk "#8b4513" "Sagano Line"),
  ("山陰本線", LineAttrs.mk "#8b4513" "San\x27in Line"),
  ("山陰線", LineAttrs.mk "#8b4513" "San\x27in Line"),
  ("湖西線", LineAttrs.mk "#00a0e9" "Kosei Line"),
  ("山陽新幹線", LineAttrs.mk "#0072bc" "Sanyo Shinkansen"),
  ("山陽線", LineAttrs.mk "#0072bc" "Sanyo Line"),
  ("福知山線", LineAttrs.mk "#ffd400" "Fukuchiyama Line"),
  ("片町線", LineAttrs.mk "#ff69b4" "Katamachi Line"),
  ("桜島線", LineAttrs.mk "#e60012" "Sakurajima Line"),
  ("おおさか東線", LineAttrs.mk "#9acd32" "Osaka Higashi Line"),
  ("京阪本線", LineAttrs.mk "#008000" "Keihan Main Line"),
  ("京阪鴨東線", LineAttrs.mk "#008000" "Keihan Oto Line"),
  ("鴨東線", LineAttrs.mk "#008000" "Keihan Oto Line"),
  ("京阪中之島線", LineAttrs.mk "#008000" "Keihan Nakanoshima Line"),
  ("中之島線", LineAttrs.mk "#008000" "Keihan Nakanoshima Line"),
  ("京阪宇治線", LineAttrs.mk "#008000" "Keihan Uji Line"),
  ("宇治線", LineAttrs.mk "#008000" "Keihan Uji Line"),
  ("京阪交野線", LineAttrs.mk "#008000" "Keihan Katano Line"),
  ("交野線", LineAttrs.mk "#008000" "Keihan Katano Line"),
  ("京阪京津線", LineAttrs.mk "#008000" "Keihan Keishin Line"),
  ("京津線", LineAttrs.mk "#008000" "Keihan Keishin Line"),
  ("京阪石山坂本線", LineAttrs.mk "#008000" "Keihan Ishiyama-Sakamoto Line"),
  ("石山坂本線", LineAttrs.mk "#008000" "Keihan Ishiyama-Sakamoto Line"),
  ("阪急京都本線", LineAttrs.mk "#800000" "Hankyu Kyoto Line"),
  ("阪急京都線", LineAttrs.mk "#800000" "Hankyu Kyoto Line"),
  ("京都線", LineAttrs.mk "#800000" "Hankyu Kyoto Line"),
  ("阪急神戸本線", LineAttrs.mk "#800000" "Hankyu Kobe Line"),
  ("阪急神戸線", LineAttrs.mk "#800000" "Hankyu Kobe Line"),
  ("神戸線", LineAttrs.mk "#800000" "Hankyu Kobe Line"),
  ("阪急宝塚本線", LineAttrs.mk "#800000" "Hankyu Takarazuka Line"),
  ("阪急宝塚線", LineAttrs.mk "#800000" "Hankyu Takarazuka Line"),
  ("宝塚線", LineAttrs.mk "#800000" "Hankyu Takarazuka Line"),
  ("阪急千里線", LineAttrs.mk "#800000" "Hankyu Senri Line"),
  ("千里線", LineAttrs.mk "#800000" "Hankyu Senri Line"),
  ("阪急嵐山線", LineAttrs.mk "#800000" "Hankyu Arashiyama Line"),
  ("嵐山線", LineAttrs.mk "#800000" "Hankyu Arashiyama Line"),
  ("今津線", LineAttrs.mk "#800000" "Hankyu Imazu Line"),
  ("伊丹線", LineAttrs.mk "#800000" "Hankyu Itami Line"),
  ("甲陽線", LineAttrs.mk "#800000" "Hankyu Koyo Line"),
  ("箕面線", LineAttrs.mk "#800000" "Hankyu Minoo Line"),
  ("神戸高速線", LineAttrs.mk "#800000" "Kobe Kosoku Line"),
  ("近鉄京都線", LineAttrs.mk "#e60012" "Kintetsu Kyoto Line"),
  ("近鉄奈良線", LineAttrs.mk "#e60012" "Kintetsu Nara Line"),
  ("近鉄大阪線", LineAttrs.mk "#e60012" "Kintetsu Osaka Line"),
  ("大阪線", LineAttrs.mk "#e60012" "Kintetsu Osaka Line"),
  ("近鉄南大阪線", LineAttrs.mk "#e60012" "Kintetsu Minami-Osaka Line"),
  ("南大阪線", LineAttrs.mk "#e60012" "Kintetsu Minami-Osaka Line"),
  ("近鉄難波線", LineAttrs.mk "#e60012" "Kintetsu Namba Line"),
  ("難波線", LineAttrs.mk "#e60012" "Kintetsu Namba Line"),
  ("橿原線", LineAttrs.mk "#e60012" "Kintetsu Kashihara Line"),
  ("天理線", LineAttrs.mk "#e60012" "Kintetsu Tenri Line"),
  ("生駒線", LineAttrs.mk "#e60012" "Kintetsu Ikoma Line"),
  ("けいはんな線", LineAttrs.mk "#e60012" "Kintetsu Keihanna Line"),
  ("大阪市高速電気軌道御堂筋線", LineAttrs.mk "#e5171f" "Midosuji Line"),
  ("御堂筋線", LineAttrs.mk "#e5171f" "Midosuji Line"),
  ("1号線(御堂筋線)", LineAttrs.mk "#e5171f" "Midosuji Line"),
  ("大阪市高速電気軌道谷町線", LineAttrs.mk "#522886" "Tanimachi Line"),
  ("谷町線", LineAttrs.mk "#522886" "Tanimachi Line"),
  ("2号線(谷町線)", LineAttrs.mk "#522886" "Tanimachi Line"),
  ("大阪市高速電気軌道四つ橋線", LineAttrs.mk "#0078ba" "Yotsubashi Line"),
  ("四つ橋線", LineAttrs.mk "#0078ba" "Yotsubashi Line"),
  ("3号線(四つ橋線)", LineAttrs.mk "#0078ba" "Yotsubashi Line"),
  ("大阪市高速電気軌道中央線", LineAttrs.mk "#019a66" "Chuo Line"),
  ("中央線", LineAttrs.mk "#019a66" "Chuo Line"),
  ("4号線(中央線)", LineAttrs.mk "#019a66" "Chuo Line"),
  ("大阪市高速電気軌道千日前線", LineAttrs.mk "#e44d93" "Sennichimae Line"),
  ("千日前線", LineAttrs.mk "#e44d93" "Sennichimae Line"),
  ("5号線(千日前線)", LineAttrs.mk "#e44d93" "Sennichimae Line"),
  ("大阪市高速電気軌道堺筋線", LineAttrs.mk "#814721" "Sakaisuji Line"),
  ("堺筋線", LineAttrs.mk "#814721" "Sakaisuji Line"),
  ("6号線(堺筋線)", LineAttrs.mk "#814721" "Sakaisuji Line"),
  ("大阪市高速電気軌道長堀鶴見緑地線", LineAttrs.mk "#a9cc51" "Nagahori Tsurumi-ryokuchi Line"),
  ("長堀鶴見緑地線", LineAttrs.mk "#a9cc51" "Nagahori Tsurumi-ryokuchi Line"),
  ("7号線(長堀鶴見緑地線)", LineAttrs.mk "#a9cc51" "Nagahori Tsurumi-ryokuchi Line"),
  ("大阪市高速電気軌道今里筋線", LineAttrs.mk "#ee7b1a" "Imazatosuji Line"),
  ("今里筋線", LineAttrs.mk "#ee7b1a" "Imazatosuji Line"),
  ("8号線（今里筋線）", LineAttrs.mk "#ee7b1a" "Imazatosuji Line"),
  ("南港ポートタウン線", LineAttrs.mk "#00b2b2" "New Tram"),
  ("京都市営地下鉄烏丸線", LineAttrs.mk "#31a354" "Karasuma Line"),
  ("烏丸線", LineAttrs.mk "#31a354" "Karasuma Line"),
  ("京都市営地下鉄東西線", LineAttrs.mk "#e85298" "Tozai Line"),
  ("西神線", LineAttrs.mk "#008000" "Seishin Line"),
  ("西神延伸線", LineAttrs.mk "#008000" "Seishin Extension Line"),
  ("海岸線", LineAttrs.mk "#0078ba" "Kaigan Line"),
  ("北神線", LineAttrs.mk "#008000" "Hokushin Line"),
  ("阪神本線", LineAttrs.mk "#f15a22" "Hanshin Main Line"),
  ("阪神なんば線", LineAttrs.mk "#f15a22" "Hanshin Namba Line"),
  ("武庫川線", LineAttrs.mk "#f15a22" "Hanshin Mukogawa Line"),
  ("南海本線", LineAttrs.mk "#0072bc" "Nankai Main Line"),
  ("南海高野線", LineAttrs.mk "#0072bc" "Nankai Koya Line"),
  ("高野線", LineAttrs.mk "#0072bc" "Nankai Koya Line"),
  ("泉北高速鉄道線", LineAttrs.mk "#0072bc" "Semboku Rapid Railway"),
  ("叡山本線", LineAttrs.mk "#008000" "Eizan Main Line"),
  ("鞍馬線", LineAttrs.mk "#008000" "Eizan Kurama Line"),
  ("嵐山本線", LineAttrs.mk "#800080" "Randen Arashiyama Line"),
  ("北野線", LineAttrs.mk "#800080" "Randen Kitano Line"),
  ("大阪モノレール線", LineAttrs.mk "#00a0e9" "Osaka Monorail"),
  ("ポートアイランド線", LineAttrs.mk "#00b2b2" "Port Liner"),
  ("六甲アイランド線", LineAttrs.mk "#00b2b2" "Rokko Liner"),
  ("妙見線", LineAttrs.mk "#f15a22" "Nose Myoken Line"),
  ("日生線", LineAttrs.mk "#f15a22" "Nose Nissei Line"),
  ("有馬線", LineAttrs.mk "#f15a22" "Shintetsu Arima Line"),
  ("粟生線", LineAttrs.mk "#f15a22" "Shintetsu Ao Line"),
  ("阪堺線", LineAttrs.mk "#008000" "Hankai Line"),
  ("上町線", LineAttrs.mk "#008000" "Hankai Uemachi Line")]

def wikipediaPairs : List (String × CodeRow) := [
  ("CA", ("F6861F", "Tōkaidō Main Line", "JR Central")),
  ("CB", ("477543", "Gotemba Line", "JR Central")),
  ("CC", ("773C97", "Minobu Line", "JR Central")),
  ("CD", ("6FA3D7", "Iida Line", "JR Central")),
  ("CE", ("8C5A38", "Taketoyo Line", "JR Central")),
  ("CF", ("327198", "Chūō Main Line", "JR Central")),
  ("CG", ("9E1813", "Takayama Main Line", "JR Central")),
  ("CI", ("C8BA45", "Taita Line", "JR Central")),
  ("CJ", ("16B68F", "Kansai Main Line", "JR Central")),
  ("CO", ("007BBE", "Chūō Main Line", "JR East")),
  ("JA", ("2E8B57", "Saikyō Line", "JR East")),
  ("JB", ("FFD700", "Chūō–Sōbu Line", "JR East")),
  ("JC", ("FF4500", "Chūō Line (Rapid)", "JR East")),
  ("JE", ("DC143C", "Keiyō Line", "JR East")),
  ("JH", ("9ACD32", "Yokohama Line", "JR East")),
  ("JI", ("FFD700", "Tsurumi Line", "JR East")),
  ("JJ", ("3CB371", "Jōban Line", "JR East")),
  ("JK", ("00BFFF", "Keihin-Tōhoku Line", "JR East")),
  ("JL", ("808080", "Jōban Line (local)", "JR East")),
  ("JM", ("FF4500", "Musashino Line", "JR East")),
  ("JN", ("FFD700", "Nambu Line", "JR East")),
  ("JO", ("0070B9", "Yokosuka Line", "JR East")),
  ("JS", ("FF0000", "Shōnan-Shinjuku Line", "JR East")),
  ("JT", ("FFA500", "Tōkaidō Main Line", "JR East")),
  ("JU", ("FFA500", "Utsunomiya Line", "JR East")),
  ("JY", ("9ACD32", "Yamanote Line", "JR East")),
  ("SE", ("00B3E6", "Shin\x27etsu Main Line", "JR East")),
  ("SN_JR", ("F15A22", "Shinonoi Line", "JR East")),
  ("HA", ("E09C42", "Sapporo—Asahikawa—Abashiri", "JR Hokkaido")),
  ("HAP", ("0098D8", "Chitose Line (Airport)", "JR Hokkaido")),
  ("HB", ("EB848D", "Hakodate Line", "JR Hokkaido")),
  ("HH", ("487CBC", "Hokkaido Line", "JR Hokkaido")),
  ("HT", ("994A95", "Hokkaido Line", "JR Hokkaido")),
  ("HW", ("8A483B", "Sōya Main Line", "JR Hokkaido")),
  ("SB", ("2a6482", "Tokushima Line", "JR Shikoku")),
  ("SD", ("E25885", "Dosan Line", "JR Shikoku")),
  ("SM", ("00B5A7", "Mugi Line", "JR Shikoku")),
  ("SU", ("F9AA00", "Uchiko Line", "JR Shikoku")),
  ("KO", ("E3379F", "Keiō Line", "Keio")),
  ("IN", ("1A407B", "Inokashira Line", "Keio")),
  ("KS", ("005AAA", "Keisei Main Line", "Keisei")),
  ("OE", ("2683CE", "Enoshima Line", "Odakyu")),
  ("OH", ("2683CE", "Odawara Line", "Odakyu")),
  ("OT", ("2683CE", "Tama Line", "Odakyu")),
  ("MC", ("019A66", "Chūō Line", "Osaka Metro")),
  ("MI", ("EE7B1A", "Imazatosuji Line", "Osaka Metro")),
  ("MK", ("814721", "Sakaisuji Line", "Osaka Metro")),
  ("MM", ("E5171F", "Midōsuji Line", "Osaka Metro")),
  ("MN", ("A9CC51", "Nagahori Tsurumi-ryokuchi Line", "Osaka Metro")),
  ("MP", ("00A0DE", "Nankō Port Town Line", "Osaka Metro")),
  ("MS", ("E44D93", "Sennichimae Line", "Osaka Metro")),
  ("MT", ("522886", "Tanimachi Line", "Osaka Metro")),
  ("MY", ("0078BE", "Yotsubashi Line", "Osaka Metro")),
  ("SI", ("ED772D", "Ikebukuro Line", "Seibu")),
  ("SK", ("34B559", "Kokubunji Line", "Seibu")),
  ("SS", ("00A6BF", "Shinjuku Line", "Seibu")),
  ("ST", ("FAAA27", "Tamako Line", "Seibu")),
  ("SW", ("ED772D", "Tamagawa Line", "Seibu")),
  ("SY", ("EF473D", "Yamaguchi Line", "Seibu")),
  ("TD", ("00BFFF", "Noda Line", "Tobu")),
  ("TI", ("DC143C", "Isesaki Line", "Tobu")),
  ("TJ", ("004098", "Tōjō Line", "Tobu")),
  ("TN", ("FFA500", "Nikkō Line", "Tobu")),
  ("TS", ("005AAA", "Skytree Line", "Tobu")),
  ("A", ("EC6E65", "Asakusa Line", "Toei")),
  ("E", ("CE045B", "Ōedo Line", "Toei")),
  ("I", ("006CB6", "Mita Line", "Toei")),
  ("S", ("B0C124", "Shinjuku Line", "Toei")),
  ("C", ("00BB85", "Chiyoda Line", "Tokyo Metro")),
  ("F", ("9C5E31", "Fukutoshin Line", "Tokyo Metro")),
  ("G", ("FF9500", "Ginza Line", "Tokyo Metro")),
  ("H", ("B5B5AC", "Hibiya Line", "Tokyo Metro")),
  ("M", ("F62E36", "Marunouchi Line", "Tokyo Metro")),
  ("N", ("00AC9B", "Namboku Line", "Tokyo Metro")),
  ("T", ("009BBF", "Tozai Line", "Tokyo Metro")),
  ("Y", ("C1A470", "Yūrakuchō Line", "Tokyo Metro")),
  ("Z", ("8F76D6", "Hanzōmon Line", "Tokyo Metro")),
  ("DT", ("20A288", "Den-en-Toshi Line", "Tokyu")),
  ("IK", ("EE86A7", "Ikegami Line", "Tokyu")),
  ("KD", ("0068B7", "Kodomonokuni Line", "Tokyu")),
  ("MG", ("009CD2", "Meguro Line", "Tokyu")),
  ("OM", ("F18C43", "Oimachi Line", "Tokyu")),
  ("SG", ("FCC70D", "Setagaya Line", "Tokyu")),
  ("SH", ("890d84", "Shin-Yokohama Line", "Tokyu")),
  ("TM", ("AE0378", "Tamagawa Line", "Tokyu")),
  ("TY", ("DA0442", "Toyoko Line", "Tokyu")),
  ("HK", ("34B580", "Hankyu Railway", "Hankyu")),
  ("HS", ("00BFFF", "Hokusō Line", "Hokuso")),
  ("KK", ("32CAE2", "Keikyu Line", "Keikyu")),
  ("SR", ("345CAA", "Saitama Rapid Railway", "Saitama")),
  ("SL", ("FF69B4", "Shin-Keisei Line", "Shin-Keisei")),
  ("MO", ("000080", "Tokyo Monorail", "Tokyo Monorail")),
  ("TR", ("0AAA3C", "Tōyō Rapid Railway", "Toyo Rapid")),
  ("U", ("0065A6", "Yurikamome", "Yurikamome")),
  ("WK", ("6D0023", "Watarase Keikoku Line", "Watarase")),
  ("TX", ("000084", "Tsukuba Express", "Tsukuba Express"))]

def japaneseToWikiPairs : List (String × String) := [
  ("銀座線", "G"),
  ("1号線銀座線", "G"),
  ("3号線銀座線", "G"),
  ("3号線", "G"),
  ("日比谷線", "H"),
  ("2号線日比谷線", "H"),
  ("丸ノ内線", "M"),
  ("4号線丸ノ内線", "M"),
  ("4号線", "M"),
  ("4号線丸ノ内線分岐線", "M"),
  ("東西線", "T"),
  ("5号線東西線", "T"),
  ("千代田線", "C"),
  ("9号線千代田線", "C"),
  ("有楽町線", "Y"),
  ("8号線有楽町線", "Y"),
  ("半蔵門線", "Z"),
  ("11号線半蔵門線", "Z"),
  ("南北線", "N"),
  ("7号線南北線", "N"),
  ("副都心線", "F"),
  ("13号線副都心線", "F"),
  ("浅草線", "A"),
  ("1号線浅草線", "A"),
  ("三田線", "I"),
  ("6号線三田線", "I"),
  ("新宿線", "S"),
  ("10号線新宿線", "S"),
  ("大江戸線", "E"),
  ("12号線大江戸線", "E"),
  ("山手線", "JY"),
  ("中央線", "JC"),
  ("中央線快速", "JC"),
  ("中央・総武線", "JB"),
  ("総武線", "JB"),
  ("総武本線", "JB"),
  ("京浜東北線", "JK"),
  ("横須賀線", "JO"),
  ("埼京線", "JA"),
  ("赤羽線（埼京線）", "JA"),
  ("東北線（埼京線）", "JA"),
  ("常磐線", "JJ"),
  ("常磐線快速", "JJ"),
  ("京葉線", "JE"),
  ("武蔵野線", "JM"),
  ("南武線", "JN"),
  ("横浜線", "JH"),
  ("鶴見線", "JI"),
  ("東海道線", "JT"),
  ("東横線", "TY"),
  ("東急東横線", "TY"),
  ("田園都市線", "DT"),
  ("東急田園都市線", "DT"),
  ("目黒線", "MG"),
  ("東急目黒線", "MG"),
  ("大井町線", "OM"),
  ("東急大井町線", "OM"),
  ("池上線", "IK"),
  ("東急池上線", "IK"),
  ("多摩川線", "TM"),
  ("東急多摩川線", "TM"),
  ("世田谷線", "SG"),
  ("こどもの国線", "KD"),
  ("小田急線", "OH"),
  ("小田原線", "OH"),
  ("小田急小田原線", "OH"),
  ("江ノ島線", "OE"),
  ("小田急江ノ島線", "OE"),
  ("多摩線", "OT"),
  ("小田急多摩線", "OT"),
  ("京王線", "KO"),
  ("井の頭線", "IN"),
  ("京王井の頭線", "IN"),
  ("相模原線", "KO"),
  ("動物園線", "KO"),
  ("競馬場線", "KO"),
  ("池袋線", "SI"),
  ("西武池袋線", "SI"),
  ("西武新宿線", "SS"),
  ("拝島線", "SI"),
  ("多摩湖線", "ST"),
  ("国分寺線", "SK"),
  ("西武園線", "SI"),
  ("西武有楽町線", "SI"),
  ("狭山線", "SI"),
  ("豊島線", "SI"),
  ("山口線", "SY"),
  ("東上本線", "TJ"),
  ("東武東上線", "TJ"),
  ("伊勢崎線", "TI"),
  ("東武伊勢崎線", "TI"),
  ("東武スカイツリーライン", "TS"),
  ("亀戸線", "TI"),
  ("大師線", "TI"),
  ("野田線", "TD"),
  ("本線", "KS"),
  ("京成本線", "KS"),
  ("押上線", "KS"),
  ("京成押上線", "KS"),
  ("金町線", "KS"),
  ("成田空港線", "KS"),
  ("空港線", "KK"),
  ("京急本線", "KK"),
  ("京急線", "KK"),
  ("りんかい線", "HS"),
  ("東京臨海新交通臨海線", "U"),
  ("ゆりかもめ", "U"),
  ("東京モノレール羽田線", "MO"),
  ("東京モノレール", "MO"),
  ("日暮里・舎人線", "SL"),
  ("日暮里・舎人ライナー", "SL"),
  ("埼玉高速鉄道線", "SR"),
  ("北総線", "HS"),
  ("東葉高速線", "TR"),
  ("新京成線", "SL"),
  ("つくばエクスプレス", "TX"),
  ("常磐新線", "TX"),
  ("御堂筋線", "MM"),
  ("大阪市高速電気軌道御堂筋線", "MM"),
  ("1号線(御堂筋線)", "MM"),
  ("谷町線", "MT"),
  ("大阪市高速電気軌道谷町線", "MT"),
  ("2号線(谷町線)", "MT"),
  ("四つ橋線", "MY"),
  ("大阪市高速電気軌道四つ橋線", "MY"),
  ("3号線(四つ橋線)", "MY"),
  ("中央線", "MC"),
  ("大阪市高速電気軌道中央線", "MC"),
  ("4号線(中央線)", "MC"),
  ("千日前線", "MS"),
  ("大阪市高速電気軌道千日前線", "MS"),
  ("5号線(千日前線)", "MS"),
  ("堺筋線", "MK"),
  ("大阪市高速電気軌道堺筋線", "MK"),
  ("6号線(堺筋線)", "MK"),
  ("長堀鶴見緑地線", "MN"),
  ("大阪市高速電気軌道長堀鶴見緑地線", "MN"),
  ("7号線(長堀鶴見緑地線)", "MN"),
  ("今里筋線", "MI"),
  ("大阪市高速電気軌道今里筋線", "MI"),
  ("8号線（今里筋線）", "MI"),
  ("南港ポートタウン線", "MP"),
  ("阪急京都本線", "HK"),
  ("阪急京都線", "HK"),
  ("京都線", "HK"),
  ("阪急神戸本線", "HK"),
  ("阪急神戸線", "HK"),
  ("神戸線", "HK"),
  ("阪急宝塚本線", "HK"),
  ("阪急宝塚線", "HK"),
  ("宝塚線", "HK"),
  ("阪急千里線", "HK"),
  ("千里線", "HK"),
  ("阪急嵐山線", "HK"),
  ("嵐山線", "HK"),
  ("今津線", "HK"),
  ("伊丹線", "HK"),
  ("甲陽線", "HK"),
  ("箕面線", "HK"),
  ("神戸高速線", "HK")]

def additionalPairs : List (String × String) := [
  ("JR京都線", "#0072bc"),
  ("JR神戸線", "#0072bc"),
  ("JR東西線", "#ff69b4"),
  ("東海道本線", "#0072bc"),
  ("大阪環状線", "#e60012"),
  ("阪和線", "#f15a22"),
  ("関西本線", "#009944"),
  ("関西線", "#009944"),
  ("奈良線", "#a52a2a"),
  ("嵯峨野線", "#8b4513"),
  ("山陰本線", "#8b4513"),
  ("山陰線", "#8b4513"),
  ("湖西線", "#00a0e9"),
  ("山陽新幹線", "#0072bc"),
  ("山陽線", "#0072bc"),
  ("福知山線", "#ffd400"),
  ("片町線", "#ff69b4"),
  ("桜島線", "#e60012"),
  ("おおさか東線", "#9acd32"),
  ("東海道新幹線", "#0072bc"),
  ("東北新幹線", "#00b261"),
  ("京阪本線", "#008000"),
  ("京阪鴨東線", "#008000"),
  ("鴨東線", "#008000"),
  ("京阪中之島線", "#008000"),
  ("中之島線", "#008000"),
  ("京阪宇治線", "#008000"),
  ("宇治線", "#008000"),
  ("京阪交野線", "#008000"),
  ("交野線", "#008000"),
  ("京阪京津線", "#008000"),
  ("京津線", "#008000"),
  ("京阪石山坂本線", "#008000"),
  ("石山坂本線", "#008000"),
  ("近鉄京都線", "#e60012"),
  ("近鉄奈良線", "#e60012"),
  ("近鉄大阪線", "#e60012"),
  ("大阪線", "#e60012"),
  ("近鉄南大阪線", "#e60012"),
  ("南大阪線", "#e60012"),
  ("近鉄難波線", "#e60012"),
  ("難波線", "#e60012"),
  ("橿原線", "#e60012"),
  ("天理線", "#e60012"),
  ("生駒線", "#e60012"),
  ("けいはんな線", "#e60012"),
  ("京都市営地下鉄烏丸線", "#31a354"),
  ("烏丸線", "#31a354"),
  ("京都市営地下鉄東西線", "#e85298"),
  ("西神線", "#008000"),
  ("西神延伸線", "#008000"),
  ("海岸線", "#0078ba"),
  ("北神線", "#008000"),
  ("阪神本線", "#f15a22"),
  ("阪神なんば線", "#f15a22"),
  ("武庫川線", "#f15a22"),
  ("南海本線", "#0072bc"),
  ("南海高野線", "#0072bc"),
  ("高野線", "#0072bc"),
  ("泉北高速鉄道線", "#0072bc"),
  ("叡山本線", "#008000"),
  ("鞍馬線", "#008000"),
  ("嵐山本線", "#800080"),
  ("北野線", "#800080"),
  ("大阪モノレール線", "#00a0e9"),
  ("多摩都市モノレール線", "#f39800"),
  ("多摩モノレール", "#f39800"),
  ("ポートアイランド線", "#00b2b2"),
  ("六甲アイランド線", "#00b2b2"),
  ("阪堺線", "#008000"),
  ("上町線", "#008000"),
  ("妙見線", "#f15a22"),
  ("日生線", "#f15a22"),
  ("有馬線", "#f15a22"),
  ("粟生線", "#f15a22"),
  ("流山線", "#00a650"),
  ("荒川線", "#ffc20e"),
  ("ディズニーリゾートライン", "#e7348e"),
  ("上野懸垂線", "#228b22"),
  ("transfer", "#999999")]


/-! ## Canonical dicts, as Python builds them from the literals -/

def TOKYO_LINES : Dict LineAttrs := dictOf tokyoPairs

def KANSAI_LINES : Dict LineAttrs := dictOf kansaiPairs

def WIKIPEDIA_COLORS : Dict CodeRow := dictOf wikipediaPairs

def JAPANESE_TO_WIKI : Dict String := dictOf japaneseToWikiPairs

def ADDITIONAL_COLORS : Dict String := dictOf additionalPairs

/-! ## generateLineData.py: main -/

/-- The override merge of `main`: `all_lines = {}`, then
`all_lines.update(a)`, then `all_lines.update(b)` (later table wins). -/
def mergeOverride (a b : Dict LineAttrs) : Dict LineAttrs :=
  updateAll (updateAll [] a) b

/-- `main` of generateLineData.py up to the in-memory table: the override
merge followed by `all_lines['transfer'] = {'color': '#999999', 'en': 'Transfer'}`. -/
def buildAllLines (kansai tokyo : Dict LineAttrs) : Dict LineAttrs :=
  setItem (mergeOverride kansai tokyo) "transfer" (LineAttrs.mk "#999999" "Transfer")

/-- The table generateLineData.py serializes. -/
def all_lines : Dict LineAttrs := buildAllLines KANSAI_LINES TOKYO_LINES

/-! ## parseWikipediaColors.py: generate_line_data -/

/-- One iteration of the first loop of `generate_line_data`: if the code is
in the code table, store the resolved attributes, else do nothing. -/
def resolveStep (codeTable : Dict CodeRow) (acc : Dict WikiAttrs)
    (p : String × String) : Dict WikiAttrs :=
  match lookup codeTable p.2 with
  | some row => setItem acc p.1 (WikiAttrs.mk ("#" ++ row.1) row.2.1 (some row.2.2) "wikipedia")
  | none => acc

/-- The first loop of `generate_line_data`: resolve every (name, code) pair
of the code source through the code table. -/
def resolveByCode (codeSource : Dict String) (codeTable : Dict CodeRow) : Dict WikiAttrs :=
  codeSource.foldl (resolveStep codeTable) []

/-- One iteration of the second loop of `generate_line_data`: insert the
manual entry only when the key is absent (`if ja_name not in output`). -/
def fillStep (acc : Dict WikiAttrs) (p : String × String) : Dict WikiAttrs :=
  if hasKey acc p.1 then acc
  else setItem acc p.1 (WikiAttrs.mk p.2 p.1 none "manual")

/-- The second loop of `generate_line_data`: fill gaps from the secondary
color table, never overwriting an existing key. -/
def fillGaps (primary : Dict WikiAttrs) (secondary : Dict String) : Dict WikiAttrs :=
  secondary.foldl fillStep primary

/-- `generate_line_data` of parseWikipediaColors.py. -/
def generate_line_data : Dict WikiAttrs :=
  fillGaps (resolveByCode JAPANESE_TO_WIKI WIKIPEDIA_COLORS) ADDITIONAL_COLORS

/-! ## Color format and serialization -/

/-- A hexadecimal digit, as in the character class `[0-9A-Fa-f]`. -/
def isHexDigit (c : Char) : Bool :=
  (('0' ≤ c) && (c ≤ '9')) || (('a' ≤ c) && (c ≤ 'f')) || (('A' ≤ c) && (c ≤ 'F'))

/-- Whether a string matches `^#[0-9A-Fa-f]{6}$`: a hash sign followed by
exactly six hexadecimal digits. -/
def colorOk (s : String) : Bool :=
  match s.data with
  | '#' :: rest => rest.length == 6 && rest.all isHexDigit
  | _ => false

/-- JSON string escaping with `ensure_ascii=False`: only the backslash and
the double quote occur in this data set and need escaping. -/
def escChar (c : Char) : String :=
  if c = '\\' then "\\\\" else if c = '\"' then "\\\"" else String.singleton c

/-- Quote a string as a JSON string literal. -/
def jsonStr (s : String) : String :=
  "\"" ++ String.join (s.data.map escChar) ++ "\""

/-- One entry of `japan_line_data.json` under `json.dump(..., indent=2)`. -/
def serializeEntryA (k : String) (a : LineAttrs) : String :=
  "  " ++ jsonStr k ++ ": \x7b\n    \"color\": " ++ jsonStr a.color ++
    ",\n    \"en\": " ++ jsonStr a.en ++ "\n  \x7d"

/-- `json.dump(all_lines, f, ensure_ascii=False, indent=2)`. -/
def serializeA (d : Dict LineAttrs) : String :=
  "\x7b\n" ++ String.intercalate ",\n" (d.map fun kv => serializeEntryA kv.1 kv.2) ++ "\n\x7d"

/-- One entry of `japan_line_colors.json`: the field order is the insertion
order of the Python value dict (`color`, `en`, optional `operator`, `source`). -/
def serializeEntryB (k : String) (a : WikiAttrs) : String :=
  "  " ++ jsonStr k ++ ": \x7b\n    \"color\": " ++ jsonStr a.color ++
    ",\n    \"en\": " ++ jsonStr a.en ++
    (match a.operator with
     | some op => ",\n    \"operator\": " ++ jsonStr op
     | none => "") ++
    ",\n    \"source\": " ++ jsonStr a.source ++ "\n  \x7d"

/-- `json.dump(line_data, f, ensure_ascii=False, indent=2)`. -/
def serializeB (d : Dict WikiAttrs) : String :=
  "\x7b\n" ++ String.intercalate ",\n" (d.map fun kv => serializeEntryB kv.1 kv.2) ++ "\n\x7d"

/-- First run of generateLineData.py: build the table, then serialize. -/
def firstRunA : String := serializeA (buildAllLines KANSAI_LINES TOKYO_LINES)

/-- Second, independent run of generateLineData.py on the same fixed inputs. -/
def secondRunA : String := serializeA (buildAllLines KANSAI_LINES TOKYO_LINES)

/-- First run of parseWikipediaColors.py: build the table, then serialize. -/
def firstRunB : String :=
  serializeB (fillGaps (resolveByCode JAPANESE_TO_WIKI WIKIPEDIA_COLORS) ADDITIONAL_COLORS)

/-- Second, independent run of parseWikipediaColors.py on the same fixed inputs. -/
def secondRunB : String :=
  serializeB (fillGaps (resolveByCode JAPANESE_TO_WIKI WIKIPEDIA_COLORS) ADDITIONAL_COLORS)


/-! ## Dictionary lemmas -/

theorem lookup_setItem {V : Type} (d : Dict V) (key : String) (v : V) (k : String) :
    lookup (setItem d key v) k = if key = k then some v else lookup d k := by
  induction d with
  | nil => simp [setItem, lookup]
  | cons p rest ih =>
      obtain ⟨a, w⟩ := p
      by_cases hak : a = key
      · subst hak
        by_cases h : a = k <;> simp [setItem, lookup, h]
      · by_cases h1 : a = k
        · subst h1
          have h2 : ¬ key = a := fun e => hak e.symm
          simp [setItem, lookup, hak, h2]
        · by_cases h2 : key = k
          · subst h2
            simp [setItem, lookup, hak, h1, ih]
          · simp [setItem, lookup, hak, h1, h2, ih]

theorem mem_setItem_self {V : Type} (d : Dict V) (key : String) (v : V) :
    (key, v) ∈ setItem d key v := by
  induction d with
  | nil => simp [setItem]
  | cons p rest ih =>
      obtain ⟨a, w⟩ := p
      by_cases hak : a = key
      · subst hak
        simp [setItem]
      · simp only [setItem, if_neg hak]
        exact List.mem_cons_of_mem _ ih

theorem mem_of_mem_setItem {V : Type} {d : Dict V} {key : String} {v : V}
    {kv : String × V} (h : kv ∈ setItem d key v) : kv ∈ d ∨ kv = (key, v) := by
  induction d with
  | nil =>
      simp [setItem] at h
      exact Or.inr h
  | cons p rest ih =>
      obtain ⟨a, w⟩ := p
      by_cases hak : a = key
      · subst hak
        simp only [setItem, if_pos rfl] at h
        rcases List.mem_cons.mp h with h | h
        · exact Or.inr h
        · exact Or.inl (List.mem_cons_of_mem _ h)
      · simp only [setItem, if_neg hak] at h
        rcases List.mem_cons.mp h with h | h
        · exact Or.inl (h ▸ List.mem_cons_self _ _)
        · rcases ih h with h | h
          · exact Or.inl (List.mem_cons_of_mem _ h)
          · exact Or.inr h

theorem lookup_updateAll {V : Type} (ps : List (String × V)) (d : Dict V) (k : String) :
    lookup (updateAll d ps) k =
      match lookupLast ps k with
      | some v => some v
      | none => lookup d k := by
  induction ps generalizing d with
  | nil => simp [updateAll, lookupLast, List.foldl]
  | cons p ps ih =>
      have hstep : updateAll d (p :: ps) = updateAll (setItem d p.1 p.2) ps := rfl
      rw [hstep, ih]
      cases h : lookupLast ps k with
      | some v => simp [lookupLast, h]
      | none =>
          by_cases hp : p.1 = k <;>
            simp [lookupLast, h, hp, lookup_setItem]

theorem lookup_dictOf {V : Type} (ps : List (String × V)) (k : String) :
    lookup (dictOf ps) k = lookupLast ps k := by
  rw [dictOf, lookup_updateAll]
  cases lookupLast ps k <;> simp [lookup]

theorem mem_of_mem_updateAll {V : Type} {d : Dict V} {ps : List (String × V)}
    {kv : String × V} (h : kv ∈ updateAll d ps) : kv ∈ d ∨ kv ∈ ps := by
  induction ps generalizing d with
  | nil => exact Or.inl h
  | cons p ps ih =>
      have hstep : updateAll d (p :: ps) = updateAll (setItem d p.1 p.2) ps := rfl
      rw [hstep] at h
      rcases ih h with h | h
      · rcases mem_of_mem_setItem h with h | h
        · exact Or.inl h
        · exact Or.inr (h ▸ List.mem_cons_self _ _)
      · exact Or.inr (List.mem_cons_of_mem _ h)

theorem mem_of_mem_dictOf {V : Type} {ps : List (String × V)} {kv : String × V}
    (h : kv ∈ dictOf ps) : kv ∈ ps := by
  rcases mem_of_mem_updateAll h with h | h
  · cases h
  · exact h

theorem lookup_mem {V : Type} {d : Dict V} {k : String} {v : V}
    (h : lookup d k = some v) : (k, v) ∈ d := by
  induction d with
  | nil => cases h
  | cons p rest ih =>
      obtain ⟨a, w⟩ := p
      by_cases hak : a = k
      · subst hak
        simp [lookup] at h
        subst h
        exact List.mem_cons_self _ _
      · simp [lookup, hak] at h
        exact List.mem_cons_of_mem _ (ih h)

theorem lookupLast_eq_none_iff {V : Type} (ps : List (String × V)) (k : String) :
    lookupLast ps k = none ↔ k ∉ ps.map Prod.fst := by
  induction ps with
  | nil => simp [lookupLast]
  | cons p ps ih =>
      cases h : lookupLast ps k with
      | some v =>
          have hl : lookupLast (p :: ps) k = some v := by
            simp [lookupLast, h]
          rw [hl]
          simp only [List.map_cons, List.mem_cons]
          constructor
          · intro hc
            exact absurd hc (by simp)
          · intro hc
            exact absurd (ih.mpr fun hm => hc (Or.inr hm)) (by simp [h])
      | none =>
          by_cases hp : p.1 = k
          · subst hp
            simp [lookupLast, h, List.mem_cons]
          · have hl : lookupLast (p :: ps) k = none := by
              simp [lookupLast, h, hp]
            rw [hl]
            simp only [List.map_cons, List.mem_cons]
            constructor
            · intro _ hc
              rcases hc with hc | hc
              · exact hp hc.symm
              · exact ih.mp h hc
            · intro _
              trivial

theorem lookup_eq_none_iff {V : Type} (d : Dict V) (k : String) :
    lookup d k = none ↔ k ∉ keys d := by
  induction d with
  | nil => simp [lookup, keys]
  | cons p rest ih =>
      obtain ⟨a, w⟩ := p
      have hkeys : keys ((a, w) :: rest) = a :: keys rest := rfl
      rw [hkeys]
      by_cases hak : a = k
      · subst hak
        simp [lookup, List.mem_cons]
      · simp only [lookup, if_neg hak, List.mem_cons, ih]
        constructor
        · intro h hc
          rcases hc with hc | hc
          · exact hak hc.symm
          · exact h hc
        · intro h hc
          exact h (Or.inr hc)

theorem mem_keys_setItem {V : Type} (d : Dict V) (key : String) (v : V) (k : String) :
    k ∈ keys (setItem d key v) ↔ k ∈ keys d ∨ k = key := by
  induction d with
  | nil => simp [setItem, keys]
  | cons p rest ih =>
      obtain ⟨a, w⟩ := p
      by_cases hak : a = key
      · subst hak
        have h1 : setItem ((a, w) :: rest) a v = (a, v) :: rest := by
          simp [setItem]
        rw [h1]
        have h2 : keys ((a, v) :: rest) = a :: keys rest := rfl
        have h3 : keys ((a, w) :: rest) = a :: keys rest := rfl
        rw [h2, h3]
        simp only [List.mem_cons]
        tauto
      · have h1 : setItem ((a, w) :: rest) key v = (a, w) :: setItem rest key v := by
          simp [setItem, hak]
        rw [h1]
        have h2 : keys ((a, w) :: setItem rest key v) = a :: keys (setItem rest key v) := rfl
        have h3 : keys ((a, w) :: rest) = a :: keys rest := rfl
        rw [h2, h3]
        simp only [List.mem_cons, ih]
        tauto

theorem nodup_keys_setItem {V : Type} {d : Dict V} (key : String) (v : V)
    (h : (keys d).Nodup) : (keys (setItem d key v)).Nodup := by
  induction d with
  | nil => simp [setItem, keys]
  | cons p rest ih =>
      obtain ⟨a, w⟩ := p
      have hkeys : keys ((a, w) :: rest) = a :: keys rest := rfl
      rw [hkeys] at h
      rw [List.nodup_cons] at h
      by_cases hak : a = key
      · subst hak
        have h1 : setItem ((a, w) :: rest) a v = (a, v) :: rest := by
          simp [setItem]
        rw [h1]
        have h2 : keys ((a, v) :: rest) = a :: keys rest := rfl
        rw [h2, List.nodup_cons]
        exact h
      · have h1 : setItem ((a, w) :: rest) key v = (a, w) :: setItem rest key v := by
          simp [setItem, hak]
        rw [h1]
        have h2 : keys ((a, w) :: setItem rest key v) = a :: keys (setItem rest key v) := rfl
        rw [h2, List.nodup_cons]
        refine ⟨fun hm => ?_, ih h.2⟩
        rcases (mem_keys_setItem rest key v a).mp hm with hm | hm
        · exact h.1 hm
        · exact hak hm

theorem nodup_keys_updateAll {V : Type} {d : Dict V} {ps : List (String × V)}
    (h : (keys d).Nodup) : (keys (updateAll d ps)).Nodup := by
  induction ps generalizing d with
  | nil => exact h
  | cons p ps ih =>
      have hstep : updateAll d (p :: ps) = updateAll (setItem d p.1 p.2) ps := rfl
      rw [hstep]
      exact ih (nodup_keys_setItem _ _ h)

theorem nodup_keys_dictOf {V : Type} (ps : List (String × V)) :
    (keys (dictOf ps)).Nodup := by
  exact nodup_keys_updateAll (by simp [keys])

theorem lookupLast_eq_lookup {V : Type} {d : Dict V} (h : (keys d).Nodup) (k : String) :
    lookupLast d k = lookup d k := by
  induction d with
  | nil => rfl
  | cons p rest ih =>
      obtain ⟨a, w⟩ := p
      have hkeys : keys ((a, w) :: rest) = a :: keys rest := rfl
      rw [hkeys, List.nodup_cons] at h
      by_cases hak : a = k
      · subst hak
        have hnone : lookupLast rest a = none :=
          (lookupLast_eq_none_iff rest a).mpr h.1
        simp [lookupLast, lookup, hnone]
      · simp only [lookupLast, lookup, if_neg hak, ih h.2]
        cases lookup rest k <;> simp

theorem lookupLast_dictOf {V : Type} (ps : List (String × V)) (k : String) :
    lookupLast (dictOf ps) k = lookupLast ps k := by
  rw [lookupLast_eq_lookup (nodup_keys_dictOf ps), lookup_dictOf]


/-! ## Lemmas about the first loop of generate_line_data (code resolution) -/

theorem lookup_resolveStep_ne {ct : Dict CodeRow} {acc : Dict WikiAttrs}
    {p : String × String} {k : String} (h : p.1 ≠ k) :
    lookup (resolveStep ct acc p) k = lookup acc k := by
  unfold resolveStep
  cases lookup ct p.2 with
  | some row => rw [lookup_setItem, if_neg h]
  | none => rfl

theorem lookup_resolveFold_of_not_mem {ct : Dict CodeRow} {cs : List (String × String)}
    {k : String} (h : k ∉ cs.map Prod.fst) (acc : Dict WikiAttrs) :
    lookup (cs.foldl (resolveStep ct) acc) k = lookup acc k := by
  induction cs generalizing acc with
  | nil => rfl
  | cons p ps ih =>
      simp only [List.map_cons, List.mem_cons] at h
      push_neg at h
      have hstep : (p :: ps).foldl (resolveStep ct) acc = ps.foldl (resolveStep ct) (resolveStep ct acc p) := rfl
      rw [hstep, ih h.2, lookup_resolveStep_ne (fun e => h.1 e.symm)]

theorem lookup_resolveFold_of_resolvable {ct : Dict CodeRow} {cs : List (String × String)}
    {k c : String} {row : CodeRow} (hnd : (cs.map Prod.fst).Nodup)
    (hk : lookup cs k = some c) (hc : lookup ct c = some row) (acc : Dict WikiAttrs) :
    lookup (cs.foldl (resolveStep ct) acc) k =
      some (WikiAttrs.mk ("#" ++ row.1) row.2.1 (some row.2.2) "wikipedia") := by
  induction cs generalizing acc with
  | nil => cases hk
  | cons p ps ih =>
      rw [List.map_cons, List.nodup_cons] at hnd
      have hstep : (p :: ps).foldl (resolveStep ct) acc = ps.foldl (resolveStep ct) (resolveStep ct acc p) := rfl
      rw [hstep]
      by_cases hp : p.1 = k
      · have hc2 : c = p.2 := by
          have : lookup (p :: ps) k = some p.2 := by
            show (if p.1 = k then some p.2 else lookup ps k) = some p.2
            rw [if_pos hp]
          rw [this] at hk
          exact (Option.some.inj hk).symm
      
        subst hc2
        have hmem : k ∉ ps.map Prod.fst := hp ▸ hnd.1
        rw [lookup_resolveFold_of_not_mem hmem]
        unfold resolveStep
        rw [hc, lookup_setItem, if_pos hp]
      · have hk2 : lookup ps k = some c := by
          have : lookup (p :: ps) k = lookup ps k := by
            show (if p.1 = k then some p.2 else lookup ps k) = lookup ps k
            rw [if_neg hp]
          rw [this] at hk
          exact hk
        exact ih hnd.2 hk2 _

theorem lookup_resolveByCode_of_resolvable {ct : Dict CodeRow} {cs : Dict String}
    {k c : String} {row : CodeRow} (hnd : (keys cs).Nodup)
    (hk : lookup cs k = some c) (hc : lookup ct c = some row) :
    lookup (resolveByCode cs ct) k =
      some (WikiAttrs.mk ("#" ++ row.1) row.2.1 (some row.2.2) "wikipedia") :=
  lookup_resolveFold_of_resolvable hnd hk hc []

theorem lookup_resolveFold_of_unresolvable {ct : Dict CodeRow} {cs : List (String × String)}
    {k c : String} (hnd : (cs.map Prod.fst).Nodup)
    (hk : lookup cs k = some c) (hc : lookup ct c = none) (acc : Dict WikiAttrs)
    (hacc : lookup acc k = none) :
    lookup (cs.foldl (resolveStep ct) acc) k = none := by
  induction cs generalizing acc with
  | nil => cases hk
  | cons p ps ih =>
      rw [List.map_cons, List.nodup_cons] at hnd
      have hstep : (p :: ps).foldl (resolveStep ct) acc = ps.foldl (resolveStep ct) (resolveStep ct acc p) := rfl
      rw [hstep]
      by_cases hp : p.1 = k
      · have hc2 : c = p.2 := by
          have : lookup (p :: ps) k = some p.2 := by
            show (if p.1 = k then some p.2 else lookup ps k) = some p.2
            rw [if_pos hp]
          rw [this] at hk
          exact (Option.some.inj hk).symm
        subst hc2
        have hmem : k ∉ ps.map Prod.fst := hp ▸ hnd.1
        rw [lookup_resolveFold_of_not_mem hmem]
        unfold resolveStep
        rw [hc]
        exact hacc
      · have hk2 : lookup ps k = some c := by
          have : lookup (p :: ps) k = lookup ps k := by
            show (if p.1 = k then some p.2 else lookup ps k) = lookup ps k
            rw [if_neg hp]
          rw [this] at hk
          exact hk
        refine ih hnd.2 hk2 _ ?_
        rw [lookup_resolveStep_ne hp]
        exact hacc

theorem lookup_resolveByCode_of_unresolvable {ct : Dict CodeRow} {cs : Dict String}
    {k c : String} (hnd : (keys cs).Nodup)
    (hk : lookup cs k = some c) (hc : lookup ct c = none) :
    lookup (resolveByCode cs ct) k = none :=
  lookup_resolveFold_of_unresolvable hnd hk hc [] rfl

theorem lookup_resolveByCode_of_absent {ct : Dict CodeRow} {cs : Dict String}
    {k : String} (h : k ∉ keys cs) :
    lookup (resolveByCode cs ct) k = none :=
  lookup_resolveFold_of_not_mem h []

theorem mem_resolveFold {ct : Dict CodeRow} {cs : List (String × String)}
    {kv : String × WikiAttrs} :
    ∀ {acc : Dict WikiAttrs}, kv ∈ cs.foldl (resolveStep ct) acc →
      kv ∈ acc ∨ ∃ q ∈ ct,
        kv.2 = WikiAttrs.mk ("#" ++ q.2.1) q.2.2.1 (some q.2.2.2) "wikipedia" := by
  induction cs with
  | nil => exact fun h => Or.inl h
  | cons p ps ih =>
      intro acc h
      have hstep : (p :: ps).foldl (resolveStep ct) acc = ps.foldl (resolveStep ct) (resolveStep ct acc p) := rfl
      rw [hstep] at h
      rcases ih h with h | h
      · unfold resolveStep at h
        cases hct : lookup ct p.2 with
        | some row =>
            rw [hct] at h
            rcases mem_of_mem_setItem h with h | h
            · exact Or.inl h
            · refine Or.inr ⟨(p.2, row), lookup_mem hct, ?_⟩
              rw [h]
        | none =>
            rw [hct] at h
            exact Or.inl h
      · exact Or.inr h

theorem mem_resolveByCode {ct : Dict CodeRow} {cs : Dict String}
    {kv : String × WikiAttrs} (h : kv ∈ resolveByCode cs ct) :
    ∃ q ∈ ct, kv.2 = WikiAttrs.mk ("#" ++ q.2.1) q.2.2.1 (some q.2.2.2) "wikipedia" := by
  rcases mem_resolveFold h with h | h
  · cases h
  · exact h

/-! ## Lemmas about the second loop of generate_line_data (gap filling) -/

theorem lookup_fillGaps_of_some {p : Dict WikiAttrs} {s : List (String × String)}
    {k : String} {v : WikiAttrs} (h : lookup p k = some v) :
    lookup (fillGaps p s) k = some v := by
  induction s generalizing p with
  | nil => exact h
  | cons q qs ih =>
      have hstep : fillGaps p (q :: qs) = qs.foldl fillStep (fillStep p q) := rfl
      rw [hstep]
      by_cases hq : hasKey p q.1
      · have : fillStep p q = p := by
          unfold fillStep
          rw [if_pos hq]
        rw [this]
        exact ih h
      · have hne : q.1 ≠ k := by
          intro e
          apply hq
          rw [e]
          unfold hasKey
          rw [h]
          rfl
        have : lookup (fillStep p q) k = some v := by
          unfold fillStep
          rw [if_neg hq, lookup_setItem, if_neg hne]
          exact h
        exact ih this

theorem lookup_fillGaps_of_none {p : Dict WikiAttrs} {s : List (String × String)}
    {k c : String} (hp : lookup p k = none) (hs : lookup s k = some c) :
    lookup (fillGaps p s) k = some (WikiAttrs.mk c k none "manual") := by
  induction s generalizing p with
  | nil => cases hs
  | cons q qs ih =>
      have hstep : fillGaps p (q :: qs) = qs.foldl fillStep (fillStep p q) := rfl
      rw [hstep]
      by_cases hq : q.1 = k
      · have hc2 : c = q.2 := by
          have : lookup (q :: qs) k = some q.2 := by
            show (if q.1 = k then some q.2 else lookup qs k) = some q.2
            rw [if_pos hq]
          rw [this] at hs
          exact (Option.some.inj hs).symm
        subst hc2
        have hkey : hasKey p q.1 = false := by
          unfold hasKey
          rw [hq, hp]
          rfl
        have hfs : fillStep p q = setItem p q.1 (WikiAttrs.mk q.2 q.1 none "manual") := by
          unfold fillStep
          rw [hkey]
          simp
        rw [hfs]
        have : lookup (setItem p q.1 (WikiAttrs.mk q.2 q.1 none "manual")) k =
            some (WikiAttrs.mk q.2 k none "manual") := by
          rw [lookup_setItem, if_pos hq, hq]
        exact lookup_fillGaps_of_some this
      · have hs2 : lookup qs k = some c := by
          have : lookup (q :: qs) k = lookup qs k := by
            show (if q.1 = k then some q.2 else lookup qs k) = lookup qs k
            rw [if_neg hq]
          rw [this] at hs
          exact hs
        have hp2 : lookup (fillStep p q) k = none := by
          unfold fillStep
          by_cases hk2 : hasKey p q.1
          · rw [if_pos hk2]
            exact hp
          · rw [if_neg hk2, lookup_setItem, if_neg hq]
            exact hp
        exact ih hp2 hs2

theorem mem_fillGaps {p : Dict WikiAttrs} {s : List (String × String)}
    {kv : String × WikiAttrs} :
    ∀ {acc : Dict WikiAttrs}, acc = p → kv ∈ fillGaps acc s →
      kv ∈ p ∨ ∃ c, (kv.1, c) ∈ s ∧ kv.2 = WikiAttrs.mk c kv.1 none "manual" := by
  induction s generalizing p with
  | nil =>
      intro acc he h
      exact Or.inl (he ▸ h)
  | cons q qs ih =>
      intro acc he h
      subst he
      have hstep : fillGaps acc (q :: qs) = qs.foldl fillStep (fillStep acc q) := rfl
      rw [hstep] at h
      rcases ih rfl h with h | h
      · unfold fillStep at h
        by_cases hq : hasKey acc q.1
        · rw [if_pos hq] at h
          exact Or.inl h
        · rw [if_neg hq] at h
          rcases mem_of_mem_setItem h with h | h
          · exact Or.inl h
          · refine Or.inr ⟨q.2, ?_, ?_⟩
            · rw [h]
              exact List.mem_cons_self _ _
            · rw [h]
      · rcases h with ⟨c, hmem, hshape⟩
        exact Or.inr ⟨c, List.mem_cons_of_mem _ hmem, hshape⟩


/-! ## Concrete facts about the fixed tables -/

theorem transferB_lookup :
    lookup generate_line_data "transfer" =
      some (WikiAttrs.mk "#999999" "transfer" none "manual") := by
  have hp : lookup (resolveByCode JAPANESE_TO_WIKI WIKIPEDIA_COLORS) "transfer" = none := by
    apply lookup_resolveByCode_of_absent
    exact (lookup_eq_none_iff _ _).mp
      (by unfold JAPANESE_TO_WIKI; rw [lookup_dictOf]; decide)
  have hs : lookup ADDITIONAL_COLORS "transfer" = some "#999999" := by
    unfold ADDITIONAL_COLORS
    rw [lookup_dictOf]
    decide
  exact lookup_fillGaps_of_none hp hs

theorem kansai_colors_ok : ∀ kv ∈ kansaiPairs, colorOk kv.2.color = true := by decide

theorem tokyo_colors_ok : ∀ kv ∈ tokyoPairs, colorOk kv.2.color = true := by decide

theorem wiki_colors_ok : ∀ q ∈ wikipediaPairs, colorOk ("#" ++ q.2.1) = true := by decide

theorem additional_colors_ok : ∀ q ∈ additionalPairs, colorOk q.2 = true := by decide

/-! ## Claim theorems -/

/-- C1 counterexample: in the parseWikipediaColors output the key "transfer"
is mapped to a record whose English name is "transfer" (lowercase, the key
itself) with a "manual" provenance tag, not to the record with English name
"Transfer" that the claim demands for both scripts. -/
theorem transfer_entry_counterexample :
    lookup generate_line_data "transfer" =
      some (WikiAttrs.mk "#999999" "transfer" none "manual") ∧
    (WikiAttrs.mk "#999999" "transfer" none "manual").en ≠ "Transfer" :=
  ⟨transferB_lookup, by decide⟩

/-- C1 (amended): generateLineData unconditionally overwrites "transfer"
after merging with color "#999999" and English name "Transfer", for any
contents of the two source tables; parseWikipediaColors instead obtains its
"transfer" entry as a fill-gap candidate from ADDITIONAL_COLORS, with
English name "transfer" and source tag "manual". -/
theorem transfer_entry_amended :
    (∀ kansai tokyo : Dict LineAttrs,
      lookup (buildAllLines kansai tokyo) "transfer" =
        some (LineAttrs.mk "#999999" "Transfer")) ∧
    lookup generate_line_data "transfer" =
      some (WikiAttrs.mk "#999999" "transfer" none "manual") := by
  constructor
  · intro kansai tokyo
    unfold buildAllLines
    rw [lookup_setItem, if_pos rfl]
  · exact transferB_lookup

/-- C2: the merge of generateLineData has override semantics: for source
tables A and B merged in order A then B, a key present in B gets B's value,
and a key absent from B keeps whatever A gives it. -/
theorem merge_override_semantics (A B : Dict LineAttrs) (k : String)
    (hA : (keys A).Nodup) (hB : (keys B).Nodup) :
    (∀ v, lookup B k = some v → lookup (mergeOverride A B) k = some v) ∧
    (lookup B k = none → lookup (mergeOverride A B) k = lookup A k) := by
  have hm : lookup (mergeOverride A B) k =
      match lookup B k with
      | some v => some v
      | none => lookup A k := by
    unfold mergeOverride
    rw [lookup_updateAll, lookupLast_eq_lookup hB]
    cases lookup B k with
    | some v => rfl
    | none =>
        rw [lookup_updateAll, lookupLast_eq_lookup hA]
        cases lookup A k with
        | some v => rfl
        | none => rfl
  constructor
  · intro v hv
    rw [hm, hv]
  · intro hv
    rw [hm, hv]

/-- C2 witness: the spec example, sourceA and sourceB both binding "X",
merged in order A then B, gives B's value for "X". -/
theorem merge_override_semantics_witness :
    lookup (mergeOverride [("X", LineAttrs.mk "#111111" "A")]
      [("X", LineAttrs.mk "#222222" "B")]) "X" = some (LineAttrs.mk "#222222" "B") :=
  (merge_override_semantics _ _ "X" (by decide) (by decide)).1 _ (by decide)

/-- C3: the second merge of parseWikipediaColors has fill-gap semantics: a
key already present in the primary result keeps the primary value, and a
key absent from the primary is added with the secondary's color, the key
itself as English name, and a "manual" tag. -/
theorem fill_gap_semantics (primary : Dict WikiAttrs) (secondary : Dict String) (k : String) :
    (∀ v, lookup primary k = some v → lookup (fillGaps primary secondary) k = some v) ∧
    (∀ c, lookup primary k = none → lookup secondary k = some c →
      lookup (fillGaps primary secondary) k = some (WikiAttrs.mk c k none "manual")) :=
  ⟨fun _ hv => lookup_fillGaps_of_some hv,
   fun _ hp hs => lookup_fillGaps_of_none hp hs⟩

/-- C3 witness: the spec example; "X" keeps the primary value although the
secondary also binds it, and "Y" is added from the secondary. -/
theorem fill_gap_semantics_witness :
    lookup (fillGaps [("X", WikiAttrs.mk "#111111" "A" none "manual")]
        [("X", "#222222"), ("Y", "#333333")]) "X" =
      some (WikiAttrs.mk "#111111" "A" none "manual") ∧
    lookup (fillGaps [("X", WikiAttrs.mk "#111111" "A" none "manual")]
        [("X", "#222222"), ("Y", "#333333")]) "Y" =
      some (WikiAttrs.mk "#333333" "Y" none "manual") :=
  ⟨(fill_gap_semantics _ _ "X").1 _ (by decide),
   (fill_gap_semantics _ _ "Y").2 _ (by decide) (by decide)⟩

/-- C4: for a (LineKey, code) pair whose code resolves in the code table,
resolveByCode maps the key to the row's hex value prefixed with a hash, the
row's English name, the row's operator, and the "wikipedia" source tag. -/
theorem resolve_by_code_resolvable (codeSource : Dict String) (codeTable : Dict CodeRow)
    (k c : String) (row : CodeRow) (hnd : (keys codeSource).Nodup)
    (hk : lookup codeSource k = some c) (hc : lookup codeTable c = some row) :
    lookup (resolveByCode codeSource codeTable) k =
      some (WikiAttrs.mk ("#" ++ row.1) row.2.1 (some row.2.2) "wikipedia") :=
  lookup_resolveByCode_of_resolvable hnd hk hc

/-- C4 witness: the spec example: "LineA" bound to code "G" with the Ginza
row resolves to the full attribute record. -/
theorem resolve_by_code_resolvable_witness :
    lookup (resolveByCode [("LineA", "G")]
        [("G", ("FF9500", "Ginza Line", "Tokyo Metro"))]) "LineA" =
      some (WikiAttrs.mk "#FF9500" "Ginza Line" (some "Tokyo Metro") "wikipedia") :=
  resolve_by_code_resolvable _ _ "LineA" "G" ("FF9500", "Ginza Line", "Tokyo Metro")
    (by decide) (by decide) (by decide)

/-- C5: for a (LineKey, code) pair whose code is absent from the code table,
resolveByCode omits the key: the lookup of that key in the result is none,
and the function is total, so no error is raised. -/
theorem resolve_by_code_unresolvable (codeSource : Dict String) (codeTable : Dict CodeRow)
    (k c : String) (hnd : (keys codeSource).Nodup)
    (hk : lookup codeSource k = some c) (hc : lookup codeTable c = none) :
    lookup (resolveByCode codeSource codeTable) k = none :=
  lookup_resolveByCode_of_unresolvable hnd hk hc

/-- C5 witness: the spec example: "LineB" bound to code "ZZ" with a code
table lacking "ZZ" yields no entry for "LineB". -/
theorem resolve_by_code_unresolvable_witness :
    lookup (resolveByCode [("LineB", "ZZ")]
        [("G", ("FF9500", "Ginza Line", "Tokyo Metro"))]) "LineB" = none :=
  resolve_by_code_unresolvable _ _ "LineB" "ZZ" (by decide) (by decide) (by decide)

/-- C6: every entry of either produced output table has a color matching
the pattern of a hash sign followed by six hexadecimal digits. -/
theorem color_format_invariant (kv : String × LineAttrs) (kv2 : String × WikiAttrs) :
    (kv ∈ all_lines → colorOk kv.2.color = true) ∧
    (kv2 ∈ generate_line_data → colorOk kv2.2.color = true) := by
  constructor
  · intro h
    have h2 : kv ∈ mergeOverride KANSAI_LINES TOKYO_LINES ∨
        kv = ("transfer", LineAttrs.mk "#999999" "Transfer") := mem_of_mem_setItem h
    rcases h2 with h2 | h2
    · rcases mem_of_mem_updateAll h2 with h3 | h3
      · rcases mem_of_mem_updateAll h3 with h4 | h4
        · cases h4
        · exact kansai_colors_ok kv (mem_of_mem_dictOf h4)
      · exact tokyo_colors_ok kv (mem_of_mem_dictOf h3)
    · rw [h2]
      decide
  · intro h
    have h0 : kv2 ∈ fillGaps (resolveByCode JAPANESE_TO_WIKI WIKIPEDIA_COLORS)
        ADDITIONAL_COLORS := h
    rcases mem_fillGaps rfl h0 with h2 | h2
    · rcases mem_resolveByCode h2 with ⟨q, hq, hshape⟩
      rw [hshape]
      exact wiki_colors_ok q (mem_of_mem_dictOf hq)
    · rcases h2 with ⟨c, hc, hshape⟩
      rw [hshape]
      exact additional_colors_ok _ (mem_of_mem_dictOf hc)

/-- C6 witness: the transfer entries of both outputs have well-formed
colors. -/
theorem color_format_invariant_witness :
    colorOk (LineAttrs.mk "#999999" "Transfer").color = true ∧
    colorOk (WikiAttrs.mk "#999999" "transfer" none "manual").color = true :=
  ⟨(color_format_invariant ("transfer", LineAttrs.mk "#999999" "Transfer")
      ("transfer", WikiAttrs.mk "#999999" "transfer" none "manual")).1
      (mem_setItem_self (mergeOverride KANSAI_LINES TOKYO_LINES) "transfer" _),
   (color_format_invariant ("transfer", LineAttrs.mk "#999999" "Transfer")
      ("transfer", WikiAttrs.mk "#999999" "transfer" none "manual")).2
      (lookup_mem transferB_lookup)⟩

/-- C7: two runs of the table build followed by serialization, on the fixed
literal inputs, produce identical byte strings, for each script. The
embedding is a pure function of the fixed tables, so both runs denote the
same computation. -/
theorem build_serialize_deterministic :
    firstRunA = secondRunA ∧ firstRunB = secondRunB :=
  ⟨rfl, rfl⟩

/-- C8: completeness of the merges: every key of either regional table and
the key "transfer" appear in generateLineData's output, and nothing else
does; every code-source key whose code resolves, and every key of
ADDITIONAL_COLORS, appears in parseWikipediaColors' output. -/
theorem merge_completeness :
    (∀ k, hasKey KANSAI_LINES k = true ∨ hasKey TOKYO_LINES k = true →
      hasKey all_lines k = true) ∧
    hasKey all_lines "transfer" = true ∧
    (∀ k, hasKey all_lines k = true →
      k = "transfer" ∨ hasKey KANSAI_LINES k = true ∨ hasKey TOKYO_LINES k = true) ∧
    (∀ k c row, lookup JAPANESE_TO_WIKI k = some c →
      lookup WIKIPEDIA_COLORS c = some row → hasKey generate_line_data k = true) ∧
    (∀ k, hasKey ADDITIONAL_COLORS k = true → hasKey generate_line_data k = true) := by
  have hAll : ∀ k, lookup all_lines k =
      if "transfer" = k then some (LineAttrs.mk "#999999" "Transfer")
      else match lookup TOKYO_LINES k with
        | some v => some v
        | none => lookup KANSAI_LINES k := by
    intro k
    show lookup (setItem (mergeOverride KANSAI_LINES TOKYO_LINES) "transfer"
      (LineAttrs.mk "#999999" "Transfer")) k = _
    rw [lookup_setItem]
    by_cases ht : "transfer" = k
    · rw [if_pos ht, if_pos ht]
    · rw [if_neg ht, if_neg ht]
      unfold mergeOverride
      rw [lookup_updateAll,
        lookupLast_eq_lookup (d := TOKYO_LINES) (nodup_keys_dictOf tokyoPairs)]
      cases lookup TOKYO_LINES k with
      | some v => rfl
      | none =>
          rw [lookup_updateAll,
            lookupLast_eq_lookup (d := KANSAI_LINES) (nodup_keys_dictOf kansaiPairs)]
          cases lookup KANSAI_LINES k with
          | some v => rfl
          | none => rfl
  refine ⟨?_, ?_, ?_, ?_, ?_⟩
  · intro k h
    unfold hasKey
    rw [hAll k]
    by_cases ht : "transfer" = k
    · rw [if_pos ht]
      rfl
    · rw [if_neg ht]
      cases hT : lookup TOKYO_LINES k with
      | some v => rfl
      | none =>
          rcases h with h | h
          · unfold hasKey at h
            exact h
          · unfold hasKey at h
            rw [hT] at h
            cases h
  · unfold hasKey
    rw [hAll "transfer", if_pos rfl]
    rfl
  · intro k h
    unfold hasKey at h
    rw [hAll k] at h
    by_cases ht : "transfer" = k
    · exact Or.inl ht.symm
    · rw [if_neg ht] at h
      cases hT : lookup TOKYO_LINES k with
      | some v =>
          refine Or.inr (Or.inr ?_)
          unfold hasKey
          rw [hT]
          rfl
      | none =>
          rw [hT] at h
          exact Or.inr (Or.inl h)
  · intro k c row h1 h2
    have hr : lookup (resolveByCode JAPANESE_TO_WIKI WIKIPEDIA_COLORS) k =
        some (WikiAttrs.mk ("#" ++ row.1) row.2.1 (some row.2.2) "wikipedia") :=
      lookup_resolveByCode_of_resolvable (nodup_keys_dictOf japaneseToWikiPairs) h1 h2
    have hf := lookup_fillGaps_of_some (s := ADDITIONAL_COLORS) hr
    unfold hasKey
    show (lookup (fillGaps (resolveByCode JAPANESE_TO_WIKI WIKIPEDIA_COLORS)
      ADDITIONAL_COLORS) k).isSome = true
    rw [hf]
    rfl
  · intro k h
    unfold hasKey at h
    unfold hasKey
    show (lookup (fillGaps (resolveByCode JAPANESE_TO_WIKI WIKIPEDIA_COLORS)
      ADDITIONAL_COLORS) k).isSome = true
    cases hc : lookup ADDITIONAL_COLORS k with
    | none =>
        rw [hc] at h
        cases h
    | some c =>
        cases hp : lookup (resolveByCode JAPANESE_TO_WIKI WIKIPEDIA_COLORS) k with
        | some v =>
            rw [lookup_fillGaps_of_some (s := ADDITIONAL_COLORS) hp]
            rfl
        | none =>
            rw [lookup_fillGaps_of_none hp hc]
            rfl

/-- C8 witness: a Kansai-only key of generateLineData and a manual key of
parseWikipediaColors both appear in the respective outputs. -/
theorem merge_completeness_witness :
    hasKey all_lines "JR京都線" = true ∧ hasKey generate_line_data "荒川線" = true :=
  ⟨merge_completeness.1 "JR京都線"
      (Or.inl (by unfold hasKey KANSAI_LINES; rw [lookup_dictOf]; decide)),
   merge_completeness.2.2.2.2 "荒川線"
      (by unfold hasKey ADDITIONAL_COLORS; rw [lookup_dictOf]; decide)⟩

/-- C9: in generateLineData, any key bound by TOKYO_LINES keeps the Tokyo
value in the output even when KANSAI_LINES also binds it, because the
Kansai table is applied first and the Tokyo table second under
later-wins update semantics. -/
theorem tokyo_precedence (k : String) (vT : LineAttrs)
    (hT : lookup TOKYO_LINES k = some vT) (hK : hasKey KANSAI_LINES k = true) :
    lookup all_lines k = some vT := by
  have hkt : k ≠ "transfer" := by
    intro e
    subst e
    have hnone : lookup TOKYO_LINES "transfer" = none := by
      unfold TOKYO_LINES
      rw [lookup_dictOf]
      decide
    rw [hnone] at hT
    cases hT
  have h1 : lookup all_lines k = lookup (mergeOverride KANSAI_LINES TOKYO_LINES) k := by
    show lookup (setItem (mergeOverride KANSAI_LINES TOKYO_LINES) "transfer"
      (LineAttrs.mk "#999999" "Transfer")) k = _
    rw [lookup_setItem, if_neg (fun e => hkt e.symm)]
  rw [h1]
  unfold mergeOverride
  rw [lookup_updateAll,
    lookupLast_eq_lookup (d := TOKYO_LINES) (nodup_keys_dictOf tokyoPairs), hT]

/-- C9 witness: the key 中央線 is bound by both regional tables and the
output carries the Tokyo value, the orange JR Chuo Line. -/
theorem tokyo_precedence_witness :
    lookup all_lines "中央線" = some (LineAttrs.mk "#FF4500" "Chuo Line") :=
  tokyo_precedence _ _
    (by unfold TOKYO_LINES; rw [lookup_dictOf]; decide)
    (by unfold hasKey KANSAI_LINES; rw [lookup_dictOf]; decide)

/-- C10: every entry of the parseWikipediaColors output carries a source
tag that is either "wikipedia" or "manual", and every "manual" entry has
its own key as English name and no operator. -/
theorem provenance_fields (kv : String × WikiAttrs) (h : kv ∈ generate_line_data) :
    (kv.2.source = "wikipedia" ∨ kv.2.source = "manual") ∧
    (kv.2.source = "manual" → kv.2.en = kv.1 ∧ kv.2.operator = none) := by
  have h0 : kv ∈ fillGaps (resolveByCode JAPANESE_TO_WIKI WIKIPEDIA_COLORS)
      ADDITIONAL_COLORS := h
  rcases mem_fillGaps rfl h0 with h2 | h2
  · rcases mem_resolveByCode h2 with ⟨q, hq, hshape⟩
    constructor
    · left
      rw [hshape]
    · intro hman
      rw [hshape] at hman
      exact absurd hman (by decide : ¬ ("wikipedia" : String) = "manual")
  · rcases h2 with ⟨c, hc, hshape⟩
    constructor
    · right
      rw [hshape]
    · intro _
      rw [hshape]
      exact ⟨rfl, rfl⟩

/-- C10 witness: the manual transfer entry of the output satisfies the
provenance disjunction. -/
theorem provenance_fields_witness :
    (WikiAttrs.mk "#999999" "transfer" none "manual").source = "wikipedia" ∨
    (WikiAttrs.mk "#999999" "transfer" none "manual").source = "manual" :=
  (provenance_fields ("transfer", WikiAttrs.mk "#999999" "transfer" none "manual")
    (lookup_mem transferB_lookup)).1

end TripPlanner
